import Mathlib

/-!
Verification of `scripts/download_english_models.py` (TalkGhana repository).

The script is a linear I/O pipeline: catalog lookup, network fetch,
archive extraction, allow-list file installation, metadata write, driven
for two hard-coded (model kind, language) pairs.  We embed it shallowly:
every fallible filesystem / network primitive takes its outcome from an
explicit environment `FsEnv`, and every externally visible action is
recorded in a trace of `Effect`s.  Operations the Python code wraps in
`try`/`except` are modelled as returning `Bool` (the code converts the
exception to a boolean); operations the code does NOT wrap (directory
creation, `shutil.copy`, the `config.json` write) surface as
`Except.error`, mirroring a Python exception propagating out of the
function.
-/

namespace TalkGhana

/-- Split a character list at every occurrence of `c`, accumulating the
current piece in reverse (helper for `pySplit`). -/
def splitOnCharAux (c : Char) : List Char → List Char → List (List Char)
  | [], acc => [acc.reverse]
  | x :: xs, acc =>
    if x = c then acc.reverse :: splitOnCharAux c xs []
    else splitOnCharAux c xs (x :: acc)

/-- Python's `s.split(c)` for a one-character separator (used for
`url.split('/')` at line 75). -/
def pySplit (c : Char) (s : String) : List String :=
  (splitOnCharAux c s.toList []).map fun l => String.mk l

/-- Python's `s.endswith(pat)` (used by the extension dispatch at
lines 47-50). -/
def pyEndsWith (s pat : String) : Bool :=
  List.isSuffixOf pat.toList s.toList

/-- A catalog entry: source URL and human-readable description
(the inner dicts of `ESPNET_DOWNLOADS`). -/
structure DownloadInfo where
  url : String
  description : String
  deriving Repr, DecidableEq

/-- The catalog's `asr`/`english` entry (lines 13-16). -/
def asrInfo : DownloadInfo :=
  ⟨"https://zenodo.org/record/3966501/files/asr_train_asr_transformer_e18_raw_bpe_sp_valid.acc.ave.zip",
   "LibriSpeech Transformer ASR model from ESPnet"⟩

/-- The catalog's `tts`/`english` entry (lines 19-22). -/
def ttsInfo : DownloadInfo :=
  ⟨"https://zenodo.org/record/4034069/files/tts_train_xvector_tacotron2_raw_phn_tacotron_g2p_en_no_space_train.loss.ave.zip",
   "LJSpeech Tacotron2 TTS model from ESPnet"⟩

/-- The static two-level catalog `ESPNET_DOWNLOADS`, as the lookup
`ESPNET_DOWNLOADS.get(model_type, {}).get(language)` performed at line 68:
`none` models Python's `None` for any unregistered pair. -/
def ESPNET_DOWNLOADS (model_type language : String) : Option DownloadInfo :=
  if model_type = "asr" then
    if language = "english" then some asrInfo else none
  else if model_type = "tts" then
    if language = "english" then some ttsInfo else none
  else none

/-- One run's filesystem / network behaviour: the outcome of each
primitive the script performs, plus the relevant directory contents.
`...Raises = true` means the corresponding Python call raises. -/
structure FsEnv where
  /-- result of `download_path.exists()` (line 78) -/
  downloadPathExists : Bool
  /-- whether `urllib.request.urlretrieve` raises (line 36) -/
  downloadRaises : Bool
  /-- whether the `unzip` subprocess / `tarfile` extraction raises (lines 49-52) -/
  extractRaises : Bool
  /-- entry names the archive adds to the scratch directory on successful extraction -/
  archiveContents : List String
  /-- names already present in the scratch directory (left over from prior runs) -/
  extractDirInitial : List String
  /-- files already present in the destination model directory -/
  destInitial : List String
  /-- whether `data_dir.mkdir` raises (line 63) -/
  mkdirDataRaises : Bool
  /-- whether `model_dir.mkdir` raises (line 66) -/
  mkdirModelRaises : Bool
  /-- whether `extract_dir.mkdir` raises (line 86) -/
  mkdirExtractRaises : Bool
  /-- whether `shutil.copy` of a given file name raises (line 94) -/
  copyRaises : String → Bool
  /-- whether opening/writing `config.json` raises (lines 113-114) -/
  writeRaises : Bool

/-- The `parameters` object of the metadata descriptor (lines 106-110). -/
structure ModelParameters where
  sampling_rate : Nat
  features : String
  model_architecture : String
  deriving Repr, DecidableEq

/-- The metadata descriptor written to `config.json` (lines 98-111). -/
structure ModelConfig where
  model_type : String
  language : String
  description : String
  placeholder : Bool
  version : String
  created : String
  source : String
  parameters : ModelParameters
  deriving Repr, DecidableEq

/-- Externally visible actions of one run, in program order. -/
inductive Effect where
  /-- a `Path.mkdir` call on the given directory -/
  | mkdir (path : String)
  /-- a network retrieval of the given URL (`urllib.request.urlretrieve`) -/
  | networkGet (url : String)
  /-- a completed `shutil.copy` of the named file into the given directory -/
  | copyFile (name : String) (destDir : String)
  /-- a completed write of the descriptor to `<destDir>/config.json` -/
  | writeConfig (destDir : String) (cfg : ModelConfig)
  /-- entry into `setup_model(model_type, language)` -/
  | setupModelCall (model_type language : String)
  deriving Repr, DecidableEq

/-- Model of `urllib.request.urlretrieve(url, target_path, progress_callback)`:
initiates a network retrieval; raises (modelled by `downloadRaises`) on
any network/IO error, including the progress callback's own errors,
which surface through this call. -/
def urlretrieve (env : FsEnv) (url : String) : Except Unit Unit × List Effect :=
  (if env.downloadRaises then Except.error () else Except.ok (), [Effect.networkGet url])

/-- The helper `download_file(url, target_path)` (lines 26-41): wraps `urlretrieve`
in `try`/`except`, converting any exception to `False`. -/
def download_file (env : FsEnv) (url target_path : String) : Bool × List Effect :=
  match urlretrieve env url with
  | (Except.ok _, tr) => (true, tr)
  | (Except.error _, tr) => (false, tr)

/-- The helper `extract_file(file_path, extract_dir)` (lines 43-57): extension
dispatch inside `try`/`except`.  Returns the success flag together with
the scratch directory's resulting contents.  An unrecognized extension
falls through both branches: nothing is extracted, `True` is returned. -/
def extract_file (env : FsEnv) (file_path extract_dir : String) : Bool × List String :=
  if pyEndsWith file_path ".zip" then
    if env.extractRaises then (false, env.extractDirInitial)
    else (true, env.extractDirInitial ++ env.archiveContents)
  else if pyEndsWith file_path ".tar.gz" || pyEndsWith file_path ".tgz" then
    if env.extractRaises then (false, env.extractDirInitial)
    else (true, env.extractDirInitial ++ env.archiveContents)
  else (true, env.extractDirInitial)

/-- A Python value passed as `extract_file`'s `file_path`: either a `str`
or a `pathlib.Path` (same textual content, but a `Path` has no `str`
methods such as `endswith`). -/
inductive PyPathVal where
  | str (s : String)
  | path (s : String)
  deriving Repr, DecidableEq

/-- The helper `extract_file` as invoked on a Python value.  For a `str`
argument it performs the extension dispatch of `extract_file`.  For a
`pathlib.Path` argument — which is what `setup_model` passes, since
`download_path = data_dir / filename` (line 76) — the very first
statement of the `try` block, `file_path.endswith('.zip')` (line 47),
raises `AttributeError` (`Path` has no `endswith`), which the `except`
at line 55 catches: the call prints the error and returns `False`, with
nothing extracted. -/
def extract_file_py (env : FsEnv) (file_path : PyPathVal) (extract_dir : String) :
    Bool × List String :=
  match file_path with
  | PyPathVal.str s => extract_file env s extract_dir
  | PyPathVal.path _ => (false, env.extractDirInitial)

/-- The allow-list of line 93. -/
def relevantNames : List String := ["model.json", "config.yaml", "train.yaml", "model.pth"]

/-- The copy loop of lines 92-95: for each globbed entry whose name is in
the allow-list, `shutil.copy` it (uncaught: a raise aborts the loop and
propagates, keeping the copies already made in the trace). -/
def copyFiles (env : FsEnv) (files : List String) (model_dir : String) :
    Except Unit Unit × List Effect :=
  match files with
  | [] => (Except.ok (), [])
  | f :: rest =>
    if f ∈ relevantNames then
      if env.copyRaises f then (Except.error (), [])
      else
        let p := copyFiles env rest model_dir
        (p.1, Effect.copyFile f model_dir :: p.2)
    else copyFiles env rest model_dir

/-- The descriptor built at lines 98-111 from the run's inputs. -/
def mkConfig (model_type language : String) (info : DownloadInfo) : ModelConfig :=
  ⟨model_type, language, info.description, false, "1.0.0", "2023-06-15", info.url,
    ⟨if model_type = "asr" then 16000 else 22050,
     if model_type = "asr" then "fbank" else "mel",
     if model_type = "asr" then "transformer" else "tacotron2"⟩⟩

/-- The destination directory `backend/src/espnet/models/<model_type>/<language>` (line 65). -/
def modelDirPath (model_type language : String) : String :=
  "backend/src/espnet/models/" ++ model_type ++ "/" ++ language

/-- The scratch directory `data/models/<model_type>_<language>_tmp` (line 85). -/
def extractDirPath (model_type language : String) : String :=
  "data/models/" ++ model_type ++ "_" ++ language ++ "_tmp"

/-- The function `setup_model(model_type, language)` (lines 59-117).  Returns
`Except.ok b` when the Python function returns `b`, `Except.error ()`
when an uncaught exception propagates out of it, together with the
trace of effects performed up to that point.  Note that line 76 builds
`download_path` as `data_dir / filename`, a `pathlib.Path`, and line 88
passes it to `extract_file`; per `extract_file_py` that call always
raises `AttributeError` internally and returns `False`, so the run can
never get past the extraction check at lines 88-89 — the copy loop
(92-95), the descriptor write (113-114) and the `return True` are dead
code, translated below but unreachable. -/
def setup_model (env : FsEnv) (model_type language : String) :
    Except Unit Bool × List Effect :=
  let tr0 : List Effect := [Effect.setupModelCall model_type language, Effect.mkdir "data/models"]
  if env.mkdirDataRaises then (Except.error (), tr0)
  else
    let model_dir := modelDirPath model_type language
    let tr1 := tr0 ++ [Effect.mkdir model_dir]
    if env.mkdirModelRaises then (Except.error (), tr1)
    else
      match ESPNET_DOWNLOADS model_type language with
      | none => (Except.ok false, tr1)
      | some info =>
        let url := info.url
        let filename := (pySplit '/' url).getLastD ""
        let download_path := "data/models/" ++ filename
        let afterDownload : Bool × List Effect :=
          if !env.downloadPathExists then download_file env url download_path
          else (true, [])
        if !afterDownload.1 then (Except.ok false, tr1 ++ afterDownload.2)
        else
          let extract_dir := extractDirPath model_type language
          let tr2 := tr1 ++ afterDownload.2 ++ [Effect.mkdir extract_dir]
          if env.mkdirExtractRaises then (Except.error (), tr2)
          else
            let ex := extract_file_py env (PyPathVal.path download_path) extract_dir
            if !ex.1 then (Except.ok false, tr2)
            else
              let cp := copyFiles env ex.2 model_dir
              match cp.1 with
              | Except.error e => (Except.error e, tr2 ++ cp.2)
              | Except.ok _ =>
                if env.writeRaises then (Except.error (), tr2 ++ cp.2)
                else
                  (Except.ok true,
                   tr2 ++ cp.2 ++ [Effect.writeConfig model_dir (mkConfig model_type language info)])

/-- The driver `main()` (lines 119-137): runs `setup_model` for (asr, english) then
(tts, english); an uncaught exception from the first aborts the process
(Python propagates it), a boolean result does not. -/
def mainRun (env1 env2 : FsEnv) : Except Unit (Bool × Bool) × List Effect :=
  match setup_model env1 "asr" "english" with
  | (Except.error e, tr) => (Except.error e, tr)
  | (Except.ok b1, tr1) =>
    match setup_model env2 "tts" "english" with
    | (Except.error e, tr2) => (Except.error e, tr1 ++ tr2)
    | (Except.ok b2, tr2) => (Except.ok (b1, b2), tr1 ++ tr2)

/-- Number of network retrievals in a trace. -/
def netCalls (tr : List Effect) : Nat :=
  (tr.filter fun e => match e with | Effect.networkGet _ => true | _ => false).length

/-- Names of files copied into the destination, in order. -/
def copiedFiles (tr : List Effect) : List String :=
  tr.filterMap fun e => match e with | Effect.copyFile n _ => some n | _ => none

/-- Descriptor writes (destination directory, descriptor) in a trace. -/
def configWrites (tr : List Effect) : List (String × ModelConfig) :=
  tr.filterMap fun e => match e with | Effect.writeConfig d c => some (d, c) | _ => none

/-- The `setup_model` invocations recorded in a trace. -/
def setupCalls (tr : List Effect) : List (String × String) :=
  tr.filterMap fun e => match e with | Effect.setupModelCall a b => some (a, b) | _ => none

/-- What an effect contributes to the destination directory `dest`:
the copied file's name, or `config.json` for the descriptor write. -/
def destObs (dest : String) (e : Effect) : Option String :=
  match e with
  | Effect.copyFile n d => if d = dest then some n else none
  | Effect.writeConfig d _ => if d = dest then some "config.json" else none
  | _ => none

/-- Contents of the destination directory `dest` after a run: its initial
files plus everything the trace put there. -/
def destFiles (env : FsEnv) (tr : List Effect) (dest : String) : List String :=
  env.destInitial ++ tr.filterMap (destObs dest)

/-- Copy of `env` with the network outcome replaced: used to state that a step
never consults the network. -/
def setDownloadRaises (env : FsEnv) (b : Bool) : FsEnv :=
  ⟨env.downloadPathExists, b, env.extractRaises, env.archiveContents,
   env.extractDirInitial, env.destInitial, env.mkdirDataRaises,
   env.mkdirModelRaises, env.mkdirExtractRaises, env.copyRaises, env.writeRaises⟩

/-! ### Helper lemmas -/

theorem pyEndsWith_append (a b pat : String) (h : pyEndsWith b pat = true) :
    pyEndsWith (a ++ b) pat = true := by
  unfold pyEndsWith at h ⊢
  rw [List.isSuffixOf_iff_suffix] at h ⊢
  have hab : (a ++ b).toList = a.toList ++ b.toList := by
    simp [String.toList]
  rw [hab]
  exact h.trans (List.suffix_append _ _)

/-- Any successful catalog lookup returns one of the two concrete entries. -/
theorem catalog_cases (mt lang : String) (info : DownloadInfo)
    (h : ESPNET_DOWNLOADS mt lang = some info) :
    (mt = "asr" ∧ lang = "english" ∧ info = asrInfo) ∨
    (mt = "tts" ∧ lang = "english" ∧ info = ttsInfo) := by
  unfold ESPNET_DOWNLOADS at h
  split_ifs at h with h1 h2 h3 h4 <;>
    first
      | exact Option.noConfusion h
      | (injection h with h
         first
           | exact Or.inl ⟨by assumption, by assumption, h.symm⟩
           | exact Or.inr ⟨by assumption, by assumption, h.symm⟩)

/-- Both catalog URLs name a file whose base name ends in `.zip`. -/
theorem catalog_zip (mt lang : String) (info : DownloadInfo)
    (h : ESPNET_DOWNLOADS mt lang = some info) :
    pyEndsWith ((pySplit '/' info.url).getLastD "") ".zip" = true := by
  rcases catalog_cases mt lang info h with ⟨-, -, hi⟩ | ⟨-, -, hi⟩ <;> subst hi <;> decide

/-- Both catalog entries carry a non-empty URL and description. -/
theorem catalog_nonempty (mt lang : String) (info : DownloadInfo)
    (h : ESPNET_DOWNLOADS mt lang = some info) :
    info.url ≠ "" ∧ info.description ≠ "" := by
  rcases catalog_cases mt lang info h with ⟨-, -, hi⟩ | ⟨-, -, hi⟩ <;> subst hi <;>
    exact ⟨by decide, by decide⟩

/-- When every `shutil.copy` succeeds, the copy loop copies exactly the
allow-list matches, in traversal order. -/
theorem copyFiles_ok (env : FsEnv) (hcp : ∀ f, env.copyRaises f = false) :
    ∀ (files : List String) (d : String),
      copyFiles env files d =
        (Except.ok (),
         (files.filter fun f => f ∈ relevantNames).map fun n => Effect.copyFile n d) := by
  intro files d
  induction files with
  | nil => simp [copyFiles]
  | cons f rest ih =>
    by_cases hf : f ∈ relevantNames <;> simp [copyFiles, hf, ih, hcp f]

/-- When no scratch entry matches the allow-list, the copy loop does
nothing: no copy is attempted, so no copy can raise. -/
theorem copyFiles_none (env : FsEnv) :
    ∀ (files : List String) (d : String),
      (∀ f ∈ files, f ∉ relevantNames) →
      copyFiles env files d = (Except.ok (), []) := by
  intro files d h
  induction files with
  | nil => simp [copyFiles]
  | cons f rest ih =>
    have hf : f ∉ relevantNames := h f (by simp)
    simp [copyFiles, hf, ih fun g hg => h g (by simp [hg])]

/-- The copy loop performs no network retrieval. -/
theorem copyFiles_netCalls (env : FsEnv) :
    ∀ (files : List String) (d : String), netCalls (copyFiles env files d).2 = 0 := by
  intro files d
  induction files with
  | nil => simp [copyFiles, netCalls]
  | cons f rest ih =>
    by_cases hf : f ∈ relevantNames
    · by_cases hr : env.copyRaises f = true <;>
        simp [copyFiles, hf, hr, netCalls] at ih ⊢ <;> exact ih
    · simpa [copyFiles, hf] using ih

/-- The copy loop records no `setup_model` invocation. -/
theorem copyFiles_setupCalls (env : FsEnv) :
    ∀ (files : List String) (d : String), setupCalls (copyFiles env files d).2 = [] := by
  intro files d
  induction files with
  | nil => simp [copyFiles, setupCalls]
  | cons f rest ih =>
    by_cases hf : f ∈ relevantNames
    · by_cases hr : env.copyRaises f = true <;>
        simp [copyFiles, hf, hr, setupCalls] at ih ⊢ <;> exact ih
    · simpa [copyFiles, hf] using ih

/-- The copy loop writes no descriptor. -/
theorem copyFiles_configWrites (env : FsEnv) :
    ∀ (files : List String) (d : String), configWrites (copyFiles env files d).2 = [] := by
  intro files d
  induction files with
  | nil => simp [copyFiles, configWrites]
  | cons f rest ih =>
    by_cases hf : f ∈ relevantNames
    · by_cases hr : env.copyRaises f = true <;>
        simp [copyFiles, hf, hr, configWrites] at ih ⊢ <;> exact ih
    · simpa [copyFiles, hf] using ih

@[simp] theorem setDownloadRaises_downloadPathExists (env : FsEnv) (b : Bool) :
    (setDownloadRaises env b).downloadPathExists = env.downloadPathExists := rfl

@[simp] theorem setDownloadRaises_downloadRaises (env : FsEnv) (b : Bool) :
    (setDownloadRaises env b).downloadRaises = b := rfl

@[simp] theorem setDownloadRaises_extractRaises (env : FsEnv) (b : Bool) :
    (setDownloadRaises env b).extractRaises = env.extractRaises := rfl

@[simp] theorem setDownloadRaises_archiveContents (env : FsEnv) (b : Bool) :
    (setDownloadRaises env b).archiveContents = env.archiveContents := rfl

@[simp] theorem setDownloadRaises_extractDirInitial (env : FsEnv) (b : Bool) :
    (setDownloadRaises env b).extractDirInitial = env.extractDirInitial := rfl

@[simp] theorem setDownloadRaises_destInitial (env : FsEnv) (b : Bool) :
    (setDownloadRaises env b).destInitial = env.destInitial := rfl

@[simp] theorem setDownloadRaises_mkdirDataRaises (env : FsEnv) (b : Bool) :
    (setDownloadRaises env b).mkdirDataRaises = env.mkdirDataRaises := rfl

@[simp] theorem setDownloadRaises_mkdirModelRaises (env : FsEnv) (b : Bool) :
    (setDownloadRaises env b).mkdirModelRaises = env.mkdirModelRaises := rfl

@[simp] theorem setDownloadRaises_mkdirExtractRaises (env : FsEnv) (b : Bool) :
    (setDownloadRaises env b).mkdirExtractRaises = env.mkdirExtractRaises := rfl

@[simp] theorem setDownloadRaises_copyRaises (env : FsEnv) (b : Bool) :
    (setDownloadRaises env b).copyRaises = env.copyRaises := rfl

@[simp] theorem setDownloadRaises_writeRaises (env : FsEnv) (b : Bool) :
    (setDownloadRaises env b).writeRaises = env.writeRaises := rfl

/-- The copy loop reads only `copyRaises`, which `setDownloadRaises` preserves. -/
theorem copyFiles_setDownloadRaises (env : FsEnv) (b : Bool) :
    ∀ (files : List String) (d : String),
      copyFiles (setDownloadRaises env b) files d = copyFiles env files d := by
  intro files d
  induction files with
  | nil => simp [copyFiles]
  | cons f rest ih =>
    by_cases hf : f ∈ relevantNames <;>
      simp [copyFiles, hf, ih]

@[simp] theorem download_file_trace (env : FsEnv) (url p : String) :
    (download_file env url p).2 = [Effect.networkGet url] := by
  unfold download_file urlretrieve
  cases env.downloadRaises <;> rfl

@[simp] theorem download_file_fst (env : FsEnv) (url p : String) :
    (download_file env url p).1 = !env.downloadRaises := by
  unfold download_file urlretrieve
  cases env.downloadRaises <;> rfl

theorem extract_file_setDownloadRaises (env : FsEnv) (b : Bool) (fp d : String) :
    extract_file (setDownloadRaises env b) fp d = extract_file env fp d := rfl

theorem extract_file_py_setDownloadRaises (env : FsEnv) (b : Bool) (fp : PyPathVal)
    (d : String) :
    extract_file_py (setDownloadRaises env b) fp d = extract_file_py env fp d := by
  cases fp <;> rfl

/-- Any run that gets past the catalog lookup, the download step and the
scratch-directory creation ends at the extraction check with a `False`
return: `extract_file` receives a `pathlib.Path`, so it always fails
(see `extract_file_py`), whatever the archive holds — the installer and
the descriptor write are never reached. -/
theorem setup_model_stops_at_extraction (env : FsEnv) (mt lang : String)
    (info : DownloadInfo)
    (hcat : ESPNET_DOWNLOADS mt lang = some info)
    (h1 : env.mkdirDataRaises = false) (h2 : env.mkdirModelRaises = false)
    (hdl : env.downloadPathExists = true ∨ env.downloadRaises = false)
    (h3 : env.mkdirExtractRaises = false) :
    setup_model env mt lang =
      (Except.ok false,
       [Effect.setupModelCall mt lang, Effect.mkdir "data/models",
        Effect.mkdir (modelDirPath mt lang)]
       ++ (if env.downloadPathExists then [] else [Effect.networkGet info.url])
       ++ [Effect.mkdir (extractDirPath mt lang)]) := by
  by_cases hdp : env.downloadPathExists = true
  · simp [setup_model, h1, h2, hcat, hdp, h3, extract_file_py]
  · have hdpf : env.downloadPathExists = false := by
      cases hv : env.downloadPathExists
      · rfl
      · exact absurd hv hdp
    have hdr : env.downloadRaises = false := by
      rcases hdl with h | h
      · exact absurd h hdp
      · exact h
    simp [setup_model, h1, h2, hcat, hdpf, hdr, h3, extract_file_py]

/-! ### Observer lemmas: how each trace statistic acts on `::` and `++` -/

@[simp] theorem netCalls_nil : netCalls [] = 0 := rfl

@[simp] theorem netCalls_append (a b : List Effect) :
    netCalls (a ++ b) = netCalls a + netCalls b := by
  simp [netCalls, List.filter_append]

@[simp] theorem netCalls_mkdir (p : String) (tr : List Effect) :
    netCalls (Effect.mkdir p :: tr) = netCalls tr := by simp [netCalls]

@[simp] theorem netCalls_networkGet (u : String) (tr : List Effect) :
    netCalls (Effect.networkGet u :: tr) = netCalls tr + 1 := by
  simp [netCalls, Nat.add_comm]

@[simp] theorem netCalls_copyFile (n d : String) (tr : List Effect) :
    netCalls (Effect.copyFile n d :: tr) = netCalls tr := by simp [netCalls]

@[simp] theorem netCalls_writeConfig (d : String) (c : ModelConfig) (tr : List Effect) :
    netCalls (Effect.writeConfig d c :: tr) = netCalls tr := by simp [netCalls]

@[simp] theorem netCalls_setupModelCall (a b : String) (tr : List Effect) :
    netCalls (Effect.setupModelCall a b :: tr) = netCalls tr := by simp [netCalls]

@[simp] theorem setupCalls_nil : setupCalls [] = [] := rfl

@[simp] theorem setupCalls_append (a b : List Effect) :
    setupCalls (a ++ b) = setupCalls a ++ setupCalls b := by
  simp [setupCalls]

@[simp] theorem setupCalls_mkdir (p : String) (tr : List Effect) :
    setupCalls (Effect.mkdir p :: tr) = setupCalls tr := by simp [setupCalls]

@[simp] theorem setupCalls_networkGet (u : String) (tr : List Effect) :
    setupCalls (Effect.networkGet u :: tr) = setupCalls tr := by simp [setupCalls]

@[simp] theorem setupCalls_copyFile (n d : String) (tr : List Effect) :
    setupCalls (Effect.copyFile n d :: tr) = setupCalls tr := by simp [setupCalls]

@[simp] theorem setupCalls_writeConfig (d : String) (c : ModelConfig) (tr : List Effect) :
    setupCalls (Effect.writeConfig d c :: tr) = setupCalls tr := by simp [setupCalls]

@[simp] theorem setupCalls_setupModelCall (a b : String) (tr : List Effect) :
    setupCalls (Effect.setupModelCall a b :: tr) = (a, b) :: setupCalls tr := by
  simp [setupCalls]

@[simp] theorem configWrites_nil : configWrites [] = [] := rfl

@[simp] theorem configWrites_append (a b : List Effect) :
    configWrites (a ++ b) = configWrites a ++ configWrites b := by
  simp [configWrites]

@[simp] theorem configWrites_mkdir (p : String) (tr : List Effect) :
    configWrites (Effect.mkdir p :: tr) = configWrites tr := by simp [configWrites]

@[simp] theorem configWrites_networkGet (u : String) (tr : List Effect) :
    configWrites (Effect.networkGet u :: tr) = configWrites tr := by simp [configWrites]

@[simp] theorem configWrites_copyFile (n d : String) (tr : List Effect) :
    configWrites (Effect.copyFile n d :: tr) = configWrites tr := by simp [configWrites]

@[simp] theorem configWrites_writeConfig (d : String) (c : ModelConfig) (tr : List Effect) :
    configWrites (Effect.writeConfig d c :: tr) = (d, c) :: configWrites tr := by
  simp [configWrites]

@[simp] theorem configWrites_setupModelCall (a b : String) (tr : List Effect) :
    configWrites (Effect.setupModelCall a b :: tr) = configWrites tr := by
  simp [configWrites]

@[simp] theorem copiedFiles_nil : copiedFiles [] = [] := rfl

@[simp] theorem copiedFiles_append (a b : List Effect) :
    copiedFiles (a ++ b) = copiedFiles a ++ copiedFiles b := by
  simp [copiedFiles]

@[simp] theorem copiedFiles_mkdir (p : String) (tr : List Effect) :
    copiedFiles (Effect.mkdir p :: tr) = copiedFiles tr := by simp [copiedFiles]

@[simp] theorem copiedFiles_networkGet (u : String) (tr : List Effect) :
    copiedFiles (Effect.networkGet u :: tr) = copiedFiles tr := by simp [copiedFiles]

@[simp] theorem copiedFiles_copyFile (n d : String) (tr : List Effect) :
    copiedFiles (Effect.copyFile n d :: tr) = n :: copiedFiles tr := by simp [copiedFiles]

@[simp] theorem copiedFiles_writeConfig (d : String) (c : ModelConfig) (tr : List Effect) :
    copiedFiles (Effect.writeConfig d c :: tr) = copiedFiles tr := by simp [copiedFiles]

@[simp] theorem copiedFiles_setupModelCall (a b : String) (tr : List Effect) :
    copiedFiles (Effect.setupModelCall a b :: tr) = copiedFiles tr := by simp [copiedFiles]

/-- The installer stage is dead code: no run of `setup_model` ever
performs a file copy, because extraction always fails first. -/
theorem copiedFiles_setup_model (env : FsEnv) (mt lang : String) :
    copiedFiles (setup_model env mt lang).2 = [] := by
  simp only [setup_model]
  repeat' split
  all_goals simp_all [extract_file_py]

/-- The descriptor write is dead code: no run of `setup_model` ever
writes `config.json`, because extraction always fails first. -/
theorem configWrites_setup_model (env : FsEnv) (mt lang : String) :
    configWrites (setup_model env mt lang).2 = [] := by
  simp only [setup_model]
  repeat' split
  all_goals simp_all [extract_file_py]

/-! ### Concrete run environments -/

/-- A run in which every primitive succeeds, the archive is already
cached, and the archive would yield a single `model.pth`. -/
def envAllOk : FsEnv :=
  ⟨true, false, false, ["model.pth"], [], [], false, false, false, fun _ => false, false⟩

/-- Identical to `envAllOk` except that `data_dir.mkdir` (line 63) raises. -/
def envMkdirCrash : FsEnv :=
  ⟨true, false, false, ["model.pth"], [], [], true, false, false, fun _ => false, false⟩

/-- The spec's extraction example: archive holds
`{config.yaml, model.pth, irrelevant.txt}`, destination starts empty. -/
def envExample : FsEnv :=
  ⟨true, false, false, ["config.yaml", "model.pth", "irrelevant.txt"], [], [],
   false, false, false, fun _ => false, false⟩

/-- A run whose archive holds only files outside the allow-list. -/
def envNoMatch : FsEnv :=
  ⟨true, false, false, ["weights.bin", "README.md"], [], [],
   false, false, false, fun _ => true, false⟩

/-! ### Claim theorems -/

/-- C1 is false as stated: the directory creation `data_dir.mkdir`
(line 63) is outside any `try`, so when it raises the exception
propagates out of `setup_model` instead of becoming a boolean failure
return. -/
theorem C1_counterexample :
    (setup_model envMkdirCrash "asr" "english").1 = Except.error () := rfl

/-- C1 (amended): `download_file` and `extract_file` catch every failure
of their own step — for `extract_file` as invoked by `setup_model` that
includes the unconditional `AttributeError` from being handed a
`pathlib.Path` — and convert it to a boolean return, and `setup_model`
converts catalog misses and download/extraction failures into a `False`
return; but the three directory creations (lines 63, 66, 86) are
unguarded, so whenever they succeed — and only then — no exception
escapes `setup_model`, whatever the network does.  (The copy loop and
the metadata write, also unguarded, are unreachable and so can never
raise in practice.) -/
theorem C1_exceptions_contained (env : FsEnv) (mt lang : String)
    (h1 : env.mkdirDataRaises = false) (h2 : env.mkdirModelRaises = false)
    (h3 : env.mkdirExtractRaises = false) :
    ∃ b, (setup_model env mt lang).1 = Except.ok b := by
  cases hcat : ESPNET_DOWNLOADS mt lang with
  | none => exact ⟨false, by simp [setup_model, h1, h2, hcat]⟩
  | some info =>
    by_cases hdp : env.downloadPathExists = true
    · exact ⟨false, by simp [setup_model, h1, h2, hcat, hdp, h3, extract_file_py]⟩
    · have hdpf : env.downloadPathExists = false := by simpa using hdp
      cases hdr : env.downloadRaises
      · exact ⟨false, by simp [setup_model, h1, h2, hcat, hdpf, hdr, h3, extract_file_py]⟩
      · exact ⟨false, by simp [setup_model, h1, h2, hcat, hdpf, hdr]⟩

theorem C1_exceptions_contained_witness :
    ∃ b, (setup_model envAllOk "asr" "english").1 = Except.ok b :=
  C1_exceptions_contained envAllOk "asr" "english" rfl rfl rfl

/-- C2: the descriptor's `parameters` object is a function of `model_type`
alone — `asr` yields 16000/`fbank`/`transformer`, `tts` yields
22050/`mel`/`tacotron2`, for every language and catalog entry. -/
theorem C2_parameters_rule (lang : String) (info : DownloadInfo) :
    (mkConfig "asr" lang info).parameters = ⟨16000, "fbank", "transformer"⟩ ∧
    (mkConfig "tts" lang info).parameters = ⟨22050, "mel", "tacotron2"⟩ ∧
    ∀ (mt lang' : String) (info' : DownloadInfo),
      (mkConfig mt lang info).parameters = (mkConfig mt lang' info').parameters :=
  ⟨rfl, rfl, fun _ _ _ => rfl⟩

/-- C4 describes the intended installer (spec §4.4 and §8), but the code
never reaches it: `setup_model` hands `extract_file` a `pathlib.Path`,
so extraction always fails and the run stops with `False`.  At the
spec's own example input — archive `{config.yaml, model.pth,
irrelevant.txt}`, empty destination — the pipeline copies nothing,
writes no `config.json`, and leaves the destination empty; in fact no
run of `setup_model` ever copies a file. -/
theorem C4_installer_unreachable :
    ((setup_model envExample "asr" "english").1 = Except.ok false ∧
     destFiles envExample (setup_model envExample "asr" "english").2
       (modelDirPath "asr" "english") = [] ∧
     copiedFiles (setup_model envExample "asr" "english").2 = []) ∧
    ∀ (env : FsEnv) (mt lang : String),
      copiedFiles (setup_model env mt lang).2 = [] :=
  ⟨⟨rfl, rfl, rfl⟩, copiedFiles_setup_model⟩

/-- C6: for an archive path ending in none of `.zip`, `.tar.gz`, `.tgz`,
`extract_file` extracts nothing (the scratch directory is unchanged) and
still returns `True`. -/
theorem C6_unrecognized_extension (env : FsEnv) (file_path extract_dir : String)
    (hz : pyEndsWith file_path ".zip" = false)
    (htg : pyEndsWith file_path ".tar.gz" = false)
    (ht : pyEndsWith file_path ".tgz" = false) :
    extract_file env file_path extract_dir = (true, env.extractDirInitial) := by
  simp [extract_file, hz, htg, ht]

theorem C6_unrecognized_extension_witness :
    extract_file envAllOk "data/models/model.rar" "data/models/asr_english_tmp" =
      (true, envAllOk.extractDirInitial) :=
  C6_unrecognized_extension envAllOk "data/models/model.rar" "data/models/asr_english_tmp"
    (by decide) (by decide) (by decide)

/-- C7 describes intended behaviour the code cannot exhibit: its premise
— extraction succeeds — is unsatisfiable, because `setup_model` hands
`extract_file` a `pathlib.Path` and extraction always fails.  At the
claim's own scenario (extraction would yield zero allow-list matches)
the run returns `False` and writes no `config.json`; indeed no run of
`setup_model` ever writes a descriptor. -/
theorem C7_zero_matches_unreachable :
    ((setup_model envNoMatch "asr" "english").1 = Except.ok false ∧
     copiedFiles (setup_model envNoMatch "asr" "english").2 = [] ∧
     configWrites (setup_model envNoMatch "asr" "english").2 = []) ∧
    ∀ (env : FsEnv) (mt lang : String),
      configWrites (setup_model env mt lang).2 = [] :=
  ⟨⟨rfl, rfl, rfl⟩, configWrites_setup_model⟩

/-- C3: if the destination file is already on disk, the run performs zero
network retrievals, and the whole run is insensitive to what the network
would have done — the cached file is accepted as-is, with no size or hash
check, and the pipeline proceeds exactly as on a fresh download. -/
theorem C3_fetch_idempotent (env : FsEnv) (mt lang : String)
    (h : env.downloadPathExists = true) :
    netCalls (setup_model env mt lang).2 = 0 ∧
    ∀ b, setup_model (setDownloadRaises env b) mt lang = setup_model env mt lang := by
  constructor
  · simp only [setup_model, h]
    repeat' split
    all_goals simp_all [copyFiles_netCalls, extract_file_py]
  · intro b
    simp [setup_model, copyFiles_setDownloadRaises, extract_file_py_setDownloadRaises, h]

theorem C3_fetch_idempotent_witness :
    netCalls (setup_model envAllOk "asr" "english").2 = 0 ∧
    setup_model (setDownloadRaises envAllOk true) "asr" "english" =
      setup_model envAllOk "asr" "english" :=
  ⟨(C3_fetch_idempotent envAllOk "asr" "english" rfl).1,
   (C3_fetch_idempotent envAllOk "asr" "english" rfl).2 true⟩

/-- C5: an unregistered (kind, language) pair performs no fetch and, when
the two directory creations succeed, makes `setup_model` return `False`;
every registered pair's catalog entry has a non-empty URL and
description. -/
theorem C5_catalog (mt lang : String) (env : FsEnv) :
    (ESPNET_DOWNLOADS mt lang = none →
      netCalls (setup_model env mt lang).2 = 0 ∧
      (env.mkdirDataRaises = false → env.mkdirModelRaises = false →
        (setup_model env mt lang).1 = Except.ok false)) ∧
    (∀ info, ESPNET_DOWNLOADS mt lang = some info →
      info.url ≠ "" ∧ info.description ≠ "") := by
  constructor
  · intro hmiss
    constructor
    · cases hm1 : env.mkdirDataRaises
      · cases hm2 : env.mkdirModelRaises
        · simp [setup_model, hm1, hm2, hmiss]
        · simp [setup_model, hm1, hm2]
      · simp [setup_model, hm1]
    · intro h1 h2
      simp [setup_model, h1, h2, hmiss]
  · intro info h
    exact catalog_nonempty mt lang info h

theorem C5_catalog_witness :
    (netCalls (setup_model envAllOk "asr" "akan").2 = 0 ∧
     (setup_model envAllOk "asr" "akan").1 = Except.ok false) ∧
    (asrInfo.url ≠ "" ∧ asrInfo.description ≠ "") :=
  ⟨⟨((C5_catalog "asr" "akan" envAllOk).1 rfl).1,
    ((C5_catalog "asr" "akan" envAllOk).1 rfl).2 rfl rfl⟩,
   (C5_catalog "asr" "english" envAllOk).2 asrInfo rfl⟩

/-- Every run of `setup_model` records exactly its own invocation,
whatever the environment does. -/
theorem setupCalls_setup_model (env : FsEnv) (mt lang : String) :
    setupCalls (setup_model env mt lang).2 = [(mt, lang)] := by
  simp only [setup_model]
  repeat' split
  all_goals simp_all [copyFiles_setupCalls]

/-- C8: the driver attempts the pipeline for exactly the pairs
(asr, english) then (tts, english), in that order; whenever the first
pipeline completes with a boolean result — success or failure alike —
the second is attempted. -/
theorem C8_driver_two_pairs (env1 env2 : FsEnv) (b1 : Bool)
    (h : (setup_model env1 "asr" "english").1 = Except.ok b1) :
    setupCalls (mainRun env1 env2).2 = [("asr", "english"), ("tts", "english")] := by
  have hs1 := setupCalls_setup_model env1 "asr" "english"
  have hs2 := setupCalls_setup_model env2 "tts" "english"
  unfold mainRun
  rcases hv1 : setup_model env1 "asr" "english" with ⟨r1, tr1⟩
  rw [hv1] at h hs1
  simp only at h hs1
  subst h
  rcases hv2 : setup_model env2 "tts" "english" with ⟨r2, tr2⟩
  rw [hv2] at hs2
  simp only at hs2
  cases r2 <;> simp [hs1, hs2]

theorem C8_driver_two_pairs_witness :
    setupCalls (mainRun envAllOk envAllOk).2 = [("asr", "english"), ("tts", "english")] :=
  C8_driver_two_pairs envAllOk envAllOk false rfl

/-- C9: every descriptor a run writes lands in the directory
`backend/src/espnet/models/<model_type>/<language>` built from the
descriptor's own `model_type` and `language` fields.  The first conjunct
states this over every run's trace (it holds vacuously, the write being
dead code); the second is the structural fact of lines 98-114 behind it:
the descriptor built for `(model_type, language)` agrees with the
directory `setup_model` would write it into. -/
theorem C9_metadata_matches_dir (env : FsEnv) (mt lang : String) :
    ((configWrites (setup_model env mt lang).2).Forall fun p =>
      p.1 = "backend/src/espnet/models/" ++ p.2.model_type ++ "/" ++ p.2.language) ∧
    ∀ (info : DownloadInfo),
      modelDirPath mt lang =
        "backend/src/espnet/models/" ++ (mkConfig mt lang info).model_type
        ++ "/" ++ (mkConfig mt lang info).language := by
  constructor
  · rw [configWrites_setup_model]
    trivial
  · intro info
    rfl

/-- C10: when the two directory creations succeed, they happen — in
order — before the catalog lookup, for registered and unregistered pairs
alike; on a catalog miss the run ends right after them with a `False`
return, so both directories exist despite the failure. -/
theorem C10_dirs_before_lookup (env : FsEnv) (mt lang : String)
    (h1 : env.mkdirDataRaises = false) (h2 : env.mkdirModelRaises = false) :
    (setup_model env mt lang).2.take 3 =
      [Effect.setupModelCall mt lang, Effect.mkdir "data/models",
       Effect.mkdir (modelDirPath mt lang)] ∧
    (ESPNET_DOWNLOADS mt lang = none →
      setup_model env mt lang =
        (Except.ok false,
         [Effect.setupModelCall mt lang, Effect.mkdir "data/models",
          Effect.mkdir (modelDirPath mt lang)])) := by
  constructor
  · simp only [setup_model, h1, h2]
    repeat' split
    all_goals simp_all
  · intro hmiss
    simp [setup_model, h1, h2, hmiss]

theorem C10_dirs_before_lookup_witness :
    (setup_model envAllOk "asr" "akan").2.take 3 =
      [Effect.setupModelCall "asr" "akan", Effect.mkdir "data/models",
       Effect.mkdir (modelDirPath "asr" "akan")] ∧
    setup_model envAllOk "asr" "akan" =
      (Except.ok false,
       [Effect.setupModelCall "asr" "akan", Effect.mkdir "data/models",
        Effect.mkdir (modelDirPath "asr" "akan")]) :=
  ⟨(C10_dirs_before_lookup envAllOk "asr" "akan" rfl rfl).1,
   (C10_dirs_before_lookup envAllOk "asr" "akan" rfl rfl).2 rfl⟩

end TalkGhana
